import Mathlib

/-!
Shallow embedding of the GronkUtils logger plugin (LoggerLibrary.h /
LoggerLibrary.cpp).  The library is a thin facade over engine services:
a log sink (UE_LOG), an on-screen overlay (GEngine->AddOnScreenDebugMessage)
and object introspection (IsValid, GetName, GetOwner, Cast<UActorComponent>).
Engine services are modelled as explicit data: emissions are collected in a
`LogEffects` record, object references are a small inductive carrying exactly
the information the code inspects, and the process-wide `DisplayLogLevel`
static is threaded as explicit state.

The severity argument `ELoggerLevel` is a `uint8`-backed enum class; the
implementation compares and switches on its raw byte, with a `default`
branch for bytes outside the seven declared enumerators.  The embedding
therefore runs the core operations on the raw byte (`Nat`, values 0..255)
and provides the declared enumerators as an inductive with their
declaration-order byte values.
-/

namespace GronkUtils

/-- The seven declared enumerators of `ELoggerLevel` (LoggerLibrary.h),
in declaration order. -/
inductive ELoggerLevel where
  | VeryVerbose
  | Verbose
  | Log
  | Display
  | Warning
  | Error
  | Fatal
deriving DecidableEq, Repr

/-- Underlying byte of each enumerator: `ELoggerLevel` is `uint8`-backed with
no explicit initializers, so values follow declaration order from 0. -/
def ELoggerLevel.toByte : ELoggerLevel → Nat
  | .VeryVerbose => 0
  | .Verbose => 1
  | .Log => 2
  | .Display => 3
  | .Warning => 4
  | .Error => 5
  | .Fatal => 6

/-- `ELogValidityCondition` (LoggerLibrary.h). -/
inductive ELogValidityCondition where
  | LogWhenValid
  | LogWhenInvalid
deriving DecidableEq, Repr

/-- `ELogBooleanCondition` (LoggerLibrary.h). -/
inductive ELogBooleanCondition where
  | LogWhenTrue
  | LogWhenFalse
deriving DecidableEq, Repr

/-- `EValidityOutcome` (LoggerLibrary.h). -/
inductive EValidityOutcome where
  | IsValid
  | IsNotValid
deriving DecidableEq, Repr

/-- `EConditionOutcome` (LoggerLibrary.h). -/
inductive EConditionOutcome where
  | IsTrue
  | IsFalse
deriving DecidableEq, Repr

/-- The named engine colors used by `LevelColorMap` and the default
`FColor::White`, modelled symbolically. -/
inductive FColor where
  | Purple
  | Blue
  | White
  | Cyan
  | Yellow
  | Red
  | Magenta
deriving DecidableEq, Repr

/-- Engine log verbosities reachable through the `switch` in
`ULoggerLibrary::LogMessage` (the `UE_LOG` second argument). -/
inductive EVerbosity where
  | VeryVerbose
  | Verbose
  | Log
  | Display
  | Warning
  | Error
  | Fatal
deriving DecidableEq, Repr

/-- Model of a `UObject*` argument, carrying exactly what the library
inspects: nullness, the display name (`GetName`), liveness (`IsValid`:
non-null and not destroyed/pending kill), and — when the object is a
`UActorComponent` (so `Cast<UActorComponent>` succeeds) — the name of its
owning actor when `GetOwner()` is non-null. -/
inductive UObjectRef where
  | null
  | object (name : String) (live : Bool)
  | component (name : String) (live : Bool) (owner : Option String)
deriving DecidableEq, Repr

/-- Modelled from the engine: `IsValid(UObject*)` is true iff the pointer is
non-null and the object is a live, non-destroyed instance. -/
def IsValidRef : UObjectRef → Bool
  | .null => false
  | .object _ live => live
  | .component _ live _ => live

/-- Context-name derivation of `ULoggerLibrary::LogMessage`
(LoggerLibrary.cpp lines 33–48): a component with a non-null owner yields
`"<OwnerName>.<ComponentName>"`, a component without an owner yields its own
name, a non-component non-null caller yields its own name, and a null caller
yields `"UnknownContext"`. -/
def contextNameOf : UObjectRef → String
  | .component name _ (some ownerName) => ownerName ++ "." ++ name
  | .component name _ none => name
  | .object name _ => name
  | .null => "UnknownContext"

/-- Modelled from the engine: `UEnum::GetValueAsString` on an `enum class`
value returns the fully qualified enumerator name
`"<EnumName>::<EnumeratorName>"` (it resolves the stored `FName` of the
entry, which for `ECppForm::EnumClass` enums is qualified); for a byte that
matches no enumerator it resolves `NAME_None`, rendered `"None"`. -/
def UEnum.GetValueAsString (level : Nat) : String :=
  match level with
  | 0 => "ELoggerLevel::VeryVerbose"
  | 1 => "ELoggerLevel::Verbose"
  | 2 => "ELoggerLevel::Log"
  | 3 => "ELoggerLevel::Display"
  | 4 => "ELoggerLevel::Warning"
  | 5 => "ELoggerLevel::Error"
  | 6 => "ELoggerLevel::Fatal"
  | _ => "None"

/-- The formatted line of `ULoggerLibrary::LogMessage` (LoggerLibrary.cpp
line 50): `FString::Printf(TEXT("[%s]\t%s: %s"), *UEnum::GetValueAsString(Level),
*ContextName, *Message)`. -/
def logStringOf (level : Nat) (contextName message : String) : String :=
  "[" ++ UEnum.GetValueAsString level ++ "]\t" ++ contextName ++ ": " ++ message

/-- The `switch (Level)` of `ULoggerLibrary::LogMessage` (LoggerLibrary.cpp
lines 52–78): each declared enumerator logs at the matching engine verbosity;
the `default` branch logs at `Log` verbosity. -/
def sinkVerbosityOf (level : Nat) : EVerbosity :=
  match level with
  | 0 => .VeryVerbose
  | 1 => .Verbose
  | 2 => .Log
  | 3 => .Display
  | 4 => .Warning
  | 5 => .Error
  | 6 => .Fatal
  | _ => .Log

/-- The static `LevelColorMap` (LoggerLibrary.cpp lines 15–23), keyed by the
severity byte. -/
def LevelColorMap : List (Nat × FColor) :=
  [(0, FColor.Purple), (1, FColor.Blue), (2, FColor.White), (3, FColor.Cyan),
   (4, FColor.Yellow), (5, FColor.Red), (6, FColor.Magenta)]

/-- `ULoggerLibrary::GetColorForLevel` (LoggerLibrary.cpp lines 146–153):
`LevelColorMap.Find`, falling back to `FColor::White`. -/
def GetColorForLevel (level : Nat) : FColor :=
  match LevelColorMap.lookup level with
  | some c => c
  | none => FColor.White

/-- The process-wide mutable state of the library: the inline static
`ULoggerLibrary::DisplayLogLevel` byte (LoggerLibrary.h line 199). -/
structure LoggerState where
  displayLogLevel : Nat
deriving DecidableEq, Repr

/-- Initial value of the static: `DisplayLogLevel = ELoggerLevel::Display`
(LoggerLibrary.h line 199). -/
def initialLoggerState : LoggerState :=
  { displayLogLevel := ELoggerLevel.Display.toByte }

/-- One `GEngine->AddOnScreenDebugMessage(-1, 5.f, TextColor, LogString)`
call (LoggerLibrary.cpp line 85); the source duration literal is `5.f`. -/
structure OnScreenMsg where
  key : Int
  duration : Nat
  color : FColor
  text : String
deriving DecidableEq, Repr

/-- The externally observable emissions of one library call: the `UE_LOG`
sink events and the on-screen overlay posts, in order. -/
structure LogEffects where
  sink : List (EVerbosity × String)
  overlay : List OnScreenMsg
deriving DecidableEq, Repr

/-- The empty emission record (a call that logged nothing). -/
def LogEffects.none : LogEffects :=
  { sink := [], overlay := [] }

/-- `ULoggerLibrary::LogMessage` (LoggerLibrary.cpp lines 30–88).
`gEngine` models whether the global `GEngine` pointer is non-null; the
overlay post happens only inside `if (GEngine)`, itself inside the
`static_cast<uint8>(Level) >= static_cast<uint8>(DisplayLogLevel)` check.
The function never writes `DisplayLogLevel`; the state is returned
unchanged. -/
def LogMessage (gEngine : Bool) (caller : UObjectRef) (message : String)
    (level : Nat) (st : LoggerState) : LogEffects × LoggerState :=
  let contextName := contextNameOf caller
  let logStr := logStringOf level contextName message
  let overlay :=
    if st.displayLogLevel ≤ level then
      if gEngine then
        [{ key := -1, duration := 5, color := GetColorForLevel level, text := logStr }]
      else []
    else []
  ({ sink := [(sinkVerbosityOf level, logStr)], overlay := overlay }, st)

/-- `ULoggerLibrary::SetDisplayLogLevel` (LoggerLibrary.cpp lines 25–28). -/
def SetDisplayLogLevel (newDisplayLevel : Nat) (st : LoggerState) : LoggerState :=
  { st with displayLogLevel := newDisplayLevel }

/-- `ULoggerLibrary::LogBool` (LoggerLibrary.cpp lines 90–94). -/
def LogBool (gEngine : Bool) (caller : UObjectRef) (message : String)
    (value : Bool) (level : Nat) (st : LoggerState) : LogEffects × LoggerState :=
  let finalMessage := message ++ ": " ++ (if value then "true" else "false")
  LogMessage gEngine caller finalMessage level st

/-- Modelled from the engine: `FString::FromInt` renders a 32-bit integer as
locale-independent decimal text with a leading minus sign for negatives. -/
def FString.FromInt (value : Int) : String :=
  toString value

/-- `ULoggerLibrary::LogInt` (LoggerLibrary.cpp lines 96–100). -/
def LogInt (gEngine : Bool) (caller : UObjectRef) (message : String)
    (value : Int) (level : Nat) (st : LoggerState) : LogEffects × LoggerState :=
  let finalMessage := message ++ ": " ++ FString.FromInt value
  LogMessage gEngine caller finalMessage level st

/-- `ULoggerLibrary::LogFloat` (LoggerLibrary.cpp lines 102–106).  The body
never inspects the double beyond handing it to the engine's
`FString::SanitizeFloat`, so the value type and that stringification are
kept as parameters of the embedding. -/
def LogFloat {α : Type} (sanitizeFloat : α → String) (gEngine : Bool)
    (caller : UObjectRef) (message : String) (value : α) (level : Nat)
    (st : LoggerState) : LogEffects × LoggerState :=
  let finalMessage := message ++ ": " ++ sanitizeFloat value
  LogMessage gEngine caller finalMessage level st

/-- The ternary of `ULoggerLibrary::LogObject` (LoggerLibrary.cpp line 110):
`Value != nullptr ? Value->GetName() : TEXT("NULL")`.  Note the test is
pointer nullness, not `IsValid`: a destroyed but non-null reference still
yields its name. -/
def objectNameOrNULL : UObjectRef → String
  | .null => "NULL"
  | .object name _ => name
  | .component name _ _ => name

/-- `ULoggerLibrary::LogObject` (LoggerLibrary.cpp lines 108–113). -/
def LogObject (gEngine : Bool) (caller : UObjectRef) (message : String)
    (value : UObjectRef) (level : Nat) (st : LoggerState) : LogEffects × LoggerState :=
  let finalMessage := message ++ ": " ++ objectNameOrNULL value
  LogMessage gEngine caller finalMessage level st

/-- Modelled from the spec: `ULoggerLibrary::LogVector` is declared in
LoggerLibrary.h (line 143) but its definition is absent from src/.  Per the
spec it appends the vector value's natural component-wise text form to the
message as `"<message>: <stringified value>"` and delegates to `LogMessage`
with all other arguments unchanged; the vector type and its component-wise
stringification are kept as parameters. -/
def LogVector {α : Type} (vectorToString : α → String) (gEngine : Bool)
    (caller : UObjectRef) (message : String) (value : α) (level : Nat)
    (st : LoggerState) : LogEffects × LoggerState :=
  let finalMessage := message ++ ": " ++ vectorToString value
  LogMessage gEngine caller finalMessage level st

/-- Modelled from the spec: `ULoggerLibrary::LogRotator` is declared in
LoggerLibrary.h (line 154) but its definition is absent from src/.  Per the
spec it appends the rotator value's natural component-wise text form to the
message as `"<message>: <stringified value>"` and delegates to `LogMessage`
with all other arguments unchanged; the rotator type and its component-wise
stringification are kept as parameters. -/
def LogRotator {α : Type} (rotatorToString : α → String) (gEngine : Bool)
    (caller : UObjectRef) (message : String) (value : α) (level : Nat)
    (st : LoggerState) : LogEffects × LoggerState :=
  let finalMessage := message ++ ": " ++ rotatorToString value
  LogMessage gEngine caller finalMessage level st

/-- `ULoggerLibrary::LogOnValidity` (LoggerLibrary.cpp lines 115–134).
Returns the `OutExecs` outcome together with the emissions. -/
def LogOnValidity (gEngine : Bool) (caller : UObjectRef) (inObject : UObjectRef)
    (condition : ELogValidityCondition) (message : String) (level : Nat)
    (st : LoggerState) : (EValidityOutcome × LogEffects) × LoggerState :=
  let bShouldLog :=
    if condition = ELogValidityCondition.LogWhenInvalid then
      !(IsValidRef inObject)
    else if condition = ELogValidityCondition.LogWhenValid then
      IsValidRef inObject
    else false
  let fx := if bShouldLog then (LogMessage gEngine caller message level st).1
            else LogEffects.none
  let outExecs := if IsValidRef inObject then EValidityOutcome.IsValid
                  else EValidityOutcome.IsNotValid
  ((outExecs, fx), st)

/-- `ULoggerLibrary::LogOnCondition` (LoggerLibrary.cpp lines 136–144). -/
def LogOnCondition (gEngine : Bool) (caller : UObjectRef) (condition : Bool)
    (logCondition : ELogBooleanCondition) (message : String) (level : Nat)
    (st : LoggerState) : (EConditionOutcome × LogEffects) × LoggerState :=
  let fx :=
    if (logCondition = ELogBooleanCondition.LogWhenTrue ∧ condition = true) ∨
       (logCondition = ELogBooleanCondition.LogWhenFalse ∧ condition = false) then
      (LogMessage gEngine caller message level st).1
    else LogEffects.none
  let outExecs := if condition then EConditionOutcome.IsTrue
                  else EConditionOutcome.IsFalse
  ((outExecs, fx), st)

/-- The severity/verbosity correspondence the spec calls "emit the line to the
log sink at the given severity": each declared enumerator pairs with the
engine verbosity of the same name. -/
def severityVerbosity : ELoggerLevel → EVerbosity
  | .VeryVerbose => .VeryVerbose
  | .Verbose => .Verbose
  | .Log => .Log
  | .Display => .Display
  | .Warning => .Warning
  | .Error => .Error
  | .Fatal => .Fatal

end GronkUtils

namespace GronkUtils

/-! Helper lemmas shared by the claim theorems. -/

theorem LogMessage_sink_eq (g : Bool) (c : UObjectRef) (m : String) (lvl : Nat)
    (st : LoggerState) :
    (LogMessage g c m lvl st).1.sink =
      [(sinkVerbosityOf lvl, logStringOf lvl (contextNameOf c) m)] := rfl

theorem LogMessage_overlay_true_eq (c : UObjectRef) (m : String) (lvl : Nat)
    (st : LoggerState) :
    (LogMessage true c m lvl st).1.overlay =
      (if st.displayLogLevel ≤ lvl then
        [{ key := -1, duration := 5, color := GetColorForLevel lvl,
           text := logStringOf lvl (contextNameOf c) m }]
       else []) := by
  unfold LogMessage
  by_cases h : st.displayLogLevel ≤ lvl <;> simp [h]

theorem sinkVerbosityOf_toByte (s : ELoggerLevel) :
    sinkVerbosityOf s.toByte = severityVerbosity s := by
  cases s <;> rfl

end GronkUtils

namespace GronkUtils

/-- C1: every LogMessage call emits the formatted line to the log sink at the
given severity regardless of the Display Threshold, and (with the engine
present) additionally posts it to the on-screen overlay if and only if the
severity byte is at least the Display Threshold, the comparison using the
declaration order (VeryVerbose lowest, Fatal highest). -/
theorem LogMessage_sink_always_overlay_iff_threshold (caller : UObjectRef)
    (message : String) (s : ELoggerLevel) (st : LoggerState) :
    (LogMessage true caller message s.toByte st).1.sink =
      [(severityVerbosity s, logStringOf s.toByte (contextNameOf caller) message)] ∧
    ((LogMessage true caller message s.toByte st).1.overlay ≠ [] ↔
      s.toByte ≥ st.displayLogLevel) ∧
    ((LogMessage true caller message s.toByte st).1.overlay = [] ∨
     (LogMessage true caller message s.toByte st).1.overlay =
       [{ key := -1, duration := 5, color := GetColorForLevel s.toByte,
          text := logStringOf s.toByte (contextNameOf caller) message }]) := by
  refine ⟨by rw [LogMessage_sink_eq, sinkVerbosityOf_toByte], ?_, ?_⟩
  · rw [LogMessage_overlay_true_eq]
    by_cases h : st.displayLogLevel ≤ s.toByte <;> simp [h]
  · rw [LogMessage_overlay_true_eq]
    by_cases h : st.displayLogLevel ≤ s.toByte <;> simp [h]

/-- C2 counterexample: the formatted line for severity Warning, caller named
"Pawn1" and message "Low health" is not the claimed
"[Warning]{tab}Pawn1: Low health" — the severity name in the line is the
enum-qualified name returned by UEnum::GetValueAsString, not the bare name. -/
theorem LogMessage_line_not_bare_severity_name :
    ((LogMessage true (UObjectRef.object "Pawn1" true) "Low health"
        ELoggerLevel.Warning.toByte initialLoggerState).1.sink.map Prod.snd) ≠
      ["[Warning]\tPawn1: Low health"] := by
  decide

/-- C2 amended: the formatted line equals
"[{SeverityName}]{tab}{ContextName}: {message}" where the severity name is
the enum-qualified enumerator name "ELoggerLevel::{Name}"; in particular for
severity Warning, context "Pawn1" and message "Low health" the line is
exactly "[ELoggerLevel::Warning]{tab}Pawn1: Low health". -/
theorem LogMessage_line_qualified_severity_name (g : Bool) (caller : UObjectRef)
    (message : String) (s : ELoggerLevel) (st : LoggerState) :
    ((LogMessage g caller message s.toByte st).1.sink.map Prod.snd) =
      ["[" ++ UEnum.GetValueAsString s.toByte ++ "]\t" ++
        contextNameOf caller ++ ": " ++ message] ∧
    ((LogMessage g (UObjectRef.object "Pawn1" true) "Low health"
        ELoggerLevel.Warning.toByte st).1.sink.map Prod.snd) =
      ["[ELoggerLevel::Warning]\tPawn1: Low health"] :=
  ⟨rfl, rfl⟩

/-- C3: context-name derivation is total and never fails: a caller with an
owning parent yields "{ParentName}.{CallerName}", a caller without one yields
its own name, and a missing caller yields the literal "UnknownContext". -/
theorem contextName_total_derivation (name ownerName : String) (live : Bool) :
    contextNameOf (UObjectRef.component name live (some ownerName)) =
      ownerName ++ "." ++ name ∧
    contextNameOf (UObjectRef.component name live none) = name ∧
    contextNameOf (UObjectRef.object name live) = name ∧
    contextNameOf UObjectRef.null = "UnknownContext" :=
  ⟨rfl, rfl, rfl, rfl⟩

/-- C4: LogOnValidity emits a message if and only if (condition is
LogWhenInvalid and the object is not live) or (condition is LogWhenValid and
the object is live); the outcome signal is always IsValid exactly when the
object is live, regardless of emission. -/
theorem LogOnValidity_emission_and_outcome (g : Bool) (caller inObject : UObjectRef)
    (cond : ELogValidityCondition) (message : String) (level : Nat)
    (st : LoggerState) :
    (((LogOnValidity g caller inObject cond message level st).1.2.sink ≠ []) ↔
      ((cond = ELogValidityCondition.LogWhenInvalid ∧ IsValidRef inObject = false) ∨
       (cond = ELogValidityCondition.LogWhenValid ∧ IsValidRef inObject = true))) ∧
    (LogOnValidity g caller inObject cond message level st).1.1 =
      (if IsValidRef inObject then EValidityOutcome.IsValid
       else EValidityOutcome.IsNotValid) := by
  cases cond <;> cases h : IsValidRef inObject <;>
    simp [LogOnValidity, LogMessage, LogEffects.none, h]

/-- C5: LogOnCondition emits a message if and only if (logCondition is
LogWhenTrue and the condition is true) or (logCondition is LogWhenFalse and
the condition is false); the outcome signal is always IsTrue exactly when the
condition is true. -/
theorem LogOnCondition_emission_and_outcome (g : Bool) (caller : UObjectRef)
    (condition : Bool) (logCondition : ELogBooleanCondition) (message : String)
    (level : Nat) (st : LoggerState) :
    (((LogOnCondition g caller condition logCondition message level st).1.2.sink ≠ []) ↔
      ((logCondition = ELogBooleanCondition.LogWhenTrue ∧ condition = true) ∨
       (logCondition = ELogBooleanCondition.LogWhenFalse ∧ condition = false))) ∧
    (LogOnCondition g caller condition logCondition message level st).1.1 =
      (if condition then EConditionOutcome.IsTrue else EConditionOutcome.IsFalse) := by
  cases logCondition <;> cases condition <;>
    simp [LogOnCondition, LogMessage, LogEffects.none]

end GronkUtils

namespace GronkUtils

/-- C6: the Display Threshold starts at Display, is written only by
SetDisplayLogLevel, every other operation returns the state unchanged, and
after SetDisplayLogLevel(x) the overlay comparison of a subsequent
LogMessage uses x. -/
theorem DisplayThreshold_init_setter_frame :
    initialLoggerState.displayLogLevel = ELoggerLevel.Display.toByte ∧
    (∀ (x : Nat) (st : LoggerState),
      (SetDisplayLogLevel x st).displayLogLevel = x) ∧
    (∀ (g : Bool) (c : UObjectRef) (m : String) (lvl : Nat) (st : LoggerState),
      (LogMessage g c m lvl st).2 = st) ∧
    (∀ (g : Bool) (c : UObjectRef) (m : String) (v : Bool) (lvl : Nat)
      (st : LoggerState), (LogBool g c m v lvl st).2 = st) ∧
    (∀ (g : Bool) (c : UObjectRef) (m : String) (v : Int) (lvl : Nat)
      (st : LoggerState), (LogInt g c m v lvl st).2 = st) ∧
    (∀ (α : Type) (f : α → String) (g : Bool) (c : UObjectRef) (m : String)
      (v : α) (lvl : Nat) (st : LoggerState), (LogFloat f g c m v lvl st).2 = st) ∧
    (∀ (g : Bool) (c : UObjectRef) (m : String) (v : UObjectRef) (lvl : Nat)
      (st : LoggerState), (LogObject g c m v lvl st).2 = st) ∧
    (∀ (α : Type) (f : α → String) (g : Bool) (c : UObjectRef) (m : String)
      (v : α) (lvl : Nat) (st : LoggerState), (LogVector f g c m v lvl st).2 = st) ∧
    (∀ (α : Type) (f : α → String) (g : Bool) (c : UObjectRef) (m : String)
      (v : α) (lvl : Nat) (st : LoggerState), (LogRotator f g c m v lvl st).2 = st) ∧
    (∀ (g : Bool) (c o : UObjectRef) (cond : ELogValidityCondition) (m : String)
      (lvl : Nat) (st : LoggerState), (LogOnValidity g c o cond m lvl st).2 = st) ∧
    (∀ (g : Bool) (c : UObjectRef) (b : Bool) (cond : ELogBooleanCondition)
      (m : String) (lvl : Nat) (st : LoggerState),
      (LogOnCondition g c b cond m lvl st).2 = st) ∧
    (∀ (x : Nat) (st : LoggerState) (c : UObjectRef) (m : String) (lvl : Nat),
      ((LogMessage true c m lvl (SetDisplayLogLevel x st)).1.overlay ≠ [] ↔
        x ≤ lvl)) := by
  refine ⟨rfl, fun _ _ => rfl, fun _ _ _ _ _ => rfl, fun _ _ _ _ _ _ => rfl,
    fun _ _ _ _ _ _ => rfl, fun _ _ _ _ _ _ _ _ => rfl, fun _ _ _ _ _ _ => rfl,
    fun _ _ _ _ _ _ _ _ => rfl, fun _ _ _ _ _ _ _ _ => rfl,
    fun _ _ _ _ _ _ _ => rfl, fun _ _ _ _ _ _ _ => rfl, ?_⟩
  intro x st c m lvl
  rw [LogMessage_overlay_true_eq]
  by_cases h : x ≤ lvl <;> simp [SetDisplayLogLevel, h]

/-- C7: each typed variant appends its stringified value to the message as
"{message}: {value}" and delegates to LogMessage with all other arguments
unchanged; booleans render "true"/"false", integers render as decimal text,
a null object reference renders "NULL"; concrete lines for LogBool("Alive",
true) and LogObject("Target", null) end in "Alive: true" and "Target: NULL"
respectively. -/
theorem typed_variants_append_and_delegate (g : Bool) (caller : UObjectRef)
    (message : String) (b : Bool) (i : Int) (level : Nat) (st : LoggerState) :
    (LogBool g caller message b level st =
      LogMessage g caller (message ++ ": " ++ (if b then "true" else "false"))
        level st) ∧
    (LogInt g caller message i level st =
      LogMessage g caller (message ++ ": " ++ FString.FromInt i) level st) ∧
    FString.FromInt 12345 = "12345" ∧
    FString.FromInt (-7) = "-7" ∧
    (∀ (α : Type) (f : α → String) (v : α),
      LogFloat f g caller message v level st =
        LogMessage g caller (message ++ ": " ++ f v) level st) ∧
    (∀ value : UObjectRef,
      LogObject g caller message value level st =
        LogMessage g caller (message ++ ": " ++ objectNameOrNULL value) level st) ∧
    objectNameOrNULL UObjectRef.null = "NULL" ∧
    ((LogBool g (UObjectRef.object "Pawn1" true) "Alive" true
        ELoggerLevel.Display.toByte st).1.sink.map Prod.snd) =
      ["[ELoggerLevel::Display]\tPawn1: " ++ "Alive: true"] ∧
    ((LogObject g (UObjectRef.object "Pawn1" true) "Target" UObjectRef.null
        ELoggerLevel.Display.toByte st).1.sink.map Prod.snd) =
      ["[ELoggerLevel::Display]\tPawn1: " ++ "Target: NULL"] :=
  ⟨rfl, rfl, rfl, rfl, fun _ _ _ => rfl, fun _ => rfl, rfl, rfl, rfl⟩

/-- C8: LogVector and LogRotator each append the value's component-wise text
form to the message as "{message}: {value}" and delegate to LogMessage with
all other arguments unchanged (bodies modelled from the spec, being absent
from src/). -/
theorem LogVector_LogRotator_append_and_delegate (g : Bool) (caller : UObjectRef)
    (message : String) (level : Nat) (st : LoggerState) :
    (∀ (α : Type) (f : α → String) (v : α),
      LogVector f g caller message v level st =
        LogMessage g caller (message ++ ": " ++ f v) level st) ∧
    (∀ (α : Type) (f : α → String) (v : α),
      LogRotator f g caller message v level st =
        LogMessage g caller (message ++ ": " ++ f v) level st) :=
  ⟨fun _ _ _ => rfl, fun _ _ _ => rfl⟩

/-- C9: the severity-to-color mapping is total with exactly one color per
declared severity, any severity byte outside the mapping yields the default
color White, and every on-screen post carries the fixed duration 5 and the
mapped color. -/
theorem severity_color_total_default_and_duration :
    GetColorForLevel ELoggerLevel.VeryVerbose.toByte = FColor.Purple ∧
    GetColorForLevel ELoggerLevel.Verbose.toByte = FColor.Blue ∧
    GetColorForLevel ELoggerLevel.Log.toByte = FColor.White ∧
    GetColorForLevel ELoggerLevel.Display.toByte = FColor.Cyan ∧
    GetColorForLevel ELoggerLevel.Warning.toByte = FColor.Yellow ∧
    GetColorForLevel ELoggerLevel.Error.toByte = FColor.Red ∧
    GetColorForLevel ELoggerLevel.Fatal.toByte = FColor.Magenta ∧
    (∀ lvl : Nat, 7 ≤ lvl → GetColorForLevel lvl = FColor.White) ∧
    (∀ (g : Bool) (c : UObjectRef) (m : String) (lvl : Nat) (st : LoggerState),
      ∀ msg ∈ (LogMessage g c m lvl st).1.overlay,
        msg.duration = 5 ∧ msg.color = GetColorForLevel lvl) := by
  refine ⟨rfl, rfl, rfl, rfl, rfl, rfl, rfl, ?_, ?_⟩
  · intro lvl h
    obtain ⟨k, rfl⟩ : ∃ k, lvl = k + 7 := ⟨lvl - 7, by omega⟩
    rfl
  · intro g c m lvl st msg hmem
    unfold LogMessage at hmem
    by_cases h : st.displayLogLevel ≤ lvl <;> cases g <;>
      simp [h] at hmem
    simp [hmem]

/-- C9 witness: the default-color branch and the duration/color facts applied
at concrete inputs. -/
theorem severity_color_default_and_duration_witness :
    GetColorForLevel 42 = FColor.White ∧
    ((OnScreenMsg.mk (-1) 5 FColor.Cyan "[ELoggerLevel::Display]\tPawn1: hi").duration = 5 ∧
     (OnScreenMsg.mk (-1) 5 FColor.Cyan "[ELoggerLevel::Display]\tPawn1: hi").color =
       GetColorForLevel 3) :=
  ⟨severity_color_total_default_and_duration.2.2.2.2.2.2.2.1 42 (by decide),
   severity_color_total_default_and_duration.2.2.2.2.2.2.2.2 true
     (UObjectRef.object "Pawn1" true) "hi" 3 initialLoggerState
     (OnScreenMsg.mk (-1) 5 FColor.Cyan "[ELoggerLevel::Display]\tPawn1: hi")
     (by decide)⟩

/-- C10: LogMessage is total over the whole severity byte range: a byte
outside the seven enumerators is still emitted to the sink through the
default switch branch at Log verbosity, the overlay decision is the same
numeric comparison against the threshold, and the color lookup yields the
default White. -/
theorem LogMessage_total_on_severity_byte (caller : UObjectRef) (message : String)
    (lvl : Nat) (st : LoggerState) (h7 : 7 ≤ lvl) (h256 : lvl < 256) :
    (LogMessage true caller message lvl st).1.sink =
      [(EVerbosity.Log, logStringOf lvl (contextNameOf caller) message)] ∧
    ((LogMessage true caller message lvl st).1.overlay ≠ [] ↔
      st.displayLogLevel ≤ lvl) ∧
    GetColorForLevel lvl = FColor.White := by
  obtain ⟨k, rfl⟩ : ∃ k, lvl = k + 7 := ⟨lvl - 7, by omega⟩
  refine ⟨rfl, ?_, rfl⟩
  rw [LogMessage_overlay_true_eq]
  by_cases h : st.displayLogLevel ≤ k + 7 <;> simp [h]

/-- C10 witness: the totality theorem applied at the out-of-range severity
byte 200. -/
theorem LogMessage_total_on_severity_byte_witness :
    (LogMessage true (UObjectRef.object "Pawn1" true) "hi" 200
        initialLoggerState).1.sink =
      [(EVerbosity.Log,
        logStringOf 200 (contextNameOf (UObjectRef.object "Pawn1" true)) "hi")] ∧
    ((LogMessage true (UObjectRef.object "Pawn1" true) "hi" 200
        initialLoggerState).1.overlay ≠ [] ↔
      initialLoggerState.displayLogLevel ≤ 200) ∧
    GetColorForLevel 200 = FColor.White :=
  LogMessage_total_on_severity_byte (UObjectRef.object "Pawn1" true) "hi" 200
    initialLoggerState (by decide) (by decide)

end GronkUtils
